import Mathlib

/-!
# A formal model of the resume-tailor pipeline

This file gives a shallow embedding, in Lean 4, of the core of the
`resume-tailor-ai` application: the LLM-service layer (`llm_service.py`),
the Streamlit session logic for transformation and follow-up refinement
(`streamlit_app.py`), the LaTeX compiler wrapper (`latex_generator.py`),
and the CLI pipeline tail (`main.py`).

Pure computations (prompt construction, provider dispatch, input
validation, budget accounting) are translated directly into Lean
functions.  Effects are made explicit: LLM calls become an oracle
`chat : List Message → String` (and `format : String → String` for the
stateless formatting call), the filesystem becomes a list of file names,
and child-process invocations are recorded as a trace of `SubprocCall`
values.  Python exceptions become `Except` results.

Two methods that the Streamlit app calls on `LLMService` —
`transform_resume_with_history` and `refine_with_feedback` — are not
present in `llm_service.py`; the definitions embedding them are modelled
from the design document and are marked `Modelled from the spec:` in
their doc comments.
-/

namespace ResumeTailor

/-- Python `str.strip()`, expressed on the character list of the string:
drop leading and trailing whitespace. -/
def pyStrip (s : String) : String :=
  ⟨((s.data.dropWhile Char.isWhitespace).reverse.dropWhile Char.isWhitespace).reverse⟩

/-- Python `str.lower()`, expressed on the character list of the string. -/
def pyLower (s : String) : String :=
  ⟨s.data.map Char.toLower⟩

/-- Python truthiness of an optional string: `None` and `""` are falsy. -/
def truthy : Option String → Bool
  | none => false
  | some s => s != ""

/-- Python `a or b` on optional strings: yields `a` when `a` is truthy,
otherwise `b` (which may itself be falsy). -/
def pyOr (a b : Option String) : Option String :=
  if truthy a then a else b

/-- `t` occurs verbatim as a contiguous substring of `s`. -/
def containsSub (s t : String) : Prop :=
  ∃ p q : String, s = p ++ t ++ q

/-- A chat message role, as used in the provider request payloads. -/
inductive Role where
  | system
  | user
  | assistant
deriving DecidableEq, Repr

/-- One `{role, content}` chat message. -/
structure Message where
  role : Role
  content : String
deriving DecidableEq, Repr

/-! ## Prompt construction (`llm_service.py`)

The Stage-1 prompt of `LLMService.transform_resume_content` is an
f-string that embeds the job description and then the original resume
between fixed blocks of instruction text.  The three fixed blocks are
transcribed below. -/

/-- The fixed text of the Stage-1 prompt before the job description. -/
def transformPromptHeader : String :=
  "You are an expert resume writer with deep analytical skills. Your task is to completely transform the resume to perfectly match the job description while maintaining authenticity and professionalism.\n\nJOB DESCRIPTION:\n"

/-- The fixed text of the Stage-1 prompt between the job description and
the original resume. -/
def transformPromptMiddle : String :=
  "\n\nORIGINAL RESUME:\n"

/-- The fixed text of the Stage-1 prompt after the original resume. -/
def transformPromptTail : String :=
  "\n\nCRITICAL REQUIREMENTS - READ CAREFULLY:\n\n"
    ++ "STEP 1: COMPREHENSIVE ANALYSIS\n"
    ++ "- Extract ALL companies, roles, and positions from the original resume\n"
    ++ "- Identify the unique storyline and achievements for EACH company/role\n"
    ++ "- Map each experience to relevant job description requirements\n"
    ++ "- Note all technical skills, projects, and accomplishments mentioned\n\n"
    ++ "STEP 2: COMPLETE TRANSFORMATION (NOT SAMPLES)\n"
    ++ "- Transform EVERY single company/role experience - do not skip any\n"
    ++ "- For EACH position, create 4-6 detailed bullet points (not just 2-3)\n"
    ++ "- Ensure ALL sections are complete: Experience, Projects, Skills, Education\n"
    ++ "- Include ALL original companies and roles - nothing should be omitted\n\n"
    ++ "STEP 3: CONTENT QUALITY GUIDELINES\n"
    ++ "- Tone: Professional but friendly, confident but not arrogant\n"
    ++ "- Accuracy: Maintain all factual information (company names, dates, titles, locations)\n"
    ++ "- Quantification: Include specific numbers, metrics, percentages, and results where possible\n"
    ++ "- Relevance: Highlight experiences that directly align with job requirements\n"
    ++ "- Consistency: Use consistent formatting and verb tense (past tense for past roles)\n"
    ++ "- Authenticity: Do NOT over-exaggerate or fabricate achievements - stay truthful to the original\n\n"
    ++ "STEP 4: STRUCTURE REQUIREMENTS\n"
    ++ "- Professional Experience: List ALL roles with company, title, dates, and location\n"
    ++ "  * Each role must have 4-6 bullet points describing achievements\n"
    ++ "  * Focus on impact, results, and skills relevant to the job description\n"
    ++ "  * Use action verbs (Led, Built, Implemented, Optimized, etc.)\n  \n"
    ++ "- Technical Projects: Include ALL projects with detailed descriptions\n"
    ++ "  * Each project: 3-4 bullet points explaining what was built and the impact\n  \n"
    ++ "- Technical Skills: Comprehensive list matching job requirements\n"
    ++ "  * Group by category (Languages, Frameworks, Tools, etc.)\n  \n"
    ++ "- Education: Complete education section with degrees, institutions, dates, GPA if mentioned\n\n"
    ++ "OUTPUT FORMAT:\n"
    ++ "Return the COMPLETE transformed resume in plain text format with clear section headers:\n"
    ++ "- Use \"### PROFESSIONAL EXPERIENCE\" for work experience\n"
    ++ "- Use \"### TECHNICAL PROJECTS\" for projects\n"
    ++ "- Use \"### TECHNICAL SKILLS\" for skills (Transform the following technical skills into a clean resume section using this format:\n\n"
    ++ "### TECHNICAL SKILLS\n\n"
    ++ "**Category 1:** skill1, skill2, skill3  \n"
    ++ "**Category 2:** skill4, skill5, skill6  \n )\n"
    ++ "- Use \"### EDUCATION\" for education\n"
    ++ "- Include header with name, contact info, location, email, LinkedIn, GitHub\n\n"
    ++ "IMPORTANT: This must be a COMPLETE, PROFESSIONAL resume ready for job applications - not a sample or partial version. Include every detail from the original resume, transformed to match the job description."

/-- The Stage-1 transformation prompt of
`LLMService.transform_resume_content`: fixed instruction text embedding
the job description and the original resume verbatim. -/
def prompt_transform (resume_text job_description : String) : String :=
  transformPromptHeader ++ job_description ++ transformPromptMiddle ++ resume_text
    ++ transformPromptTail

/-- The reasoning-process suffix appended to the Stage-1 prompt; the
same text is used by the openai, gemini and groq branches of
`transform_resume_content`. -/
def transformReasoningSuffix : String :=
  "\n\nREASONING PROCESS - FOLLOW THESE STEPS:\n"
    ++ "1. First, mentally extract ALL companies and roles from the resume - list them all\n"
    ++ "2. For each role, identify 4-6 key achievements that match the job description\n"
    ++ "3. Transform each bullet point to highlight relevant skills and results\n"
    ++ "4. Ensure consistent professional tone throughout - friendly but not over-exaggerated\n"
    ++ "5. Verify ALL sections are complete before finalizing - check that nothing is missing\n\n"
    ++ "CRITICAL REMINDER: This is a REAL resume for a REAL job application. It must be:\n"
    ++ "- COMPLETE: Include every company, every role, every project from the original\n"
    ++ "- PROFESSIONAL: Ready to submit to employers\n"
    ++ "- DETAILED: 4-6 bullet points per role, not just 2-3\n"
    ++ "- AUTHENTIC: Based on real experiences, not fabricated"

/-- The `enhanced_prompt` of `transform_resume_content`: the Stage-1
prompt followed by the reasoning-process suffix. -/
def enhanced_prompt_transform (resume_text job_description : String) : String :=
  prompt_transform resume_text job_description ++ transformReasoningSuffix

/-- The system-message persona used by the openai and groq branches of
`transform_resume_content`. -/
def transformSystemPersona : String :=
  "You are an expert resume writer specializing in ATS-optimized, storytelling resumes. You ALWAYS provide complete, professional resumes with ALL experiences included - never samples, never partial content, never just one company. Every resume you create is ready for real job applications."

/-- The two-message seed history built by `transform_resume_content` for
the chat-style backends: the system persona followed by a user message
carrying the enhanced Stage-1 prompt. -/
def transformMessages (resume_text job_description : String) : List Message :=
  [⟨.system, transformSystemPersona⟩,
   ⟨.user, enhanced_prompt_transform resume_text job_description⟩]

/-- The Stage-2 formatting prompt of `LLMService.format_to_latex`: fixed
instruction text embedding the transformed content and the LaTeX
template verbatim. -/
def prompt_format (transformed_content latex_template : String) : String :=
  "You are a LaTeX expert. Format the following resume content into the provided LaTeX template structure.\n\nTRANSFORMED RESUME CONTENT:\n"
    ++ transformed_content
    ++ "\n\nLATEX TEMPLATE STRUCTURE:\n"
    ++ latex_template
    ++ "\n\nINSTRUCTIONS:\n"
    ++ "1. Extract all information from the transformed resume content\n"
    ++ "2. Properly format it into the LaTeX template structure\n"
    ++ "3. Use appropriate LaTeX commands for sections, subsections, bold text, lists, etc.\n"
    ++ "4. Ensure proper escaping of special LaTeX characters (%, &, $, #, _, ^, \x7b, \x7d)\n"
    ++ "5. Maintain professional formatting and readability\n"
    ++ "6. Keep the template structure intact, only filling in the content\n"
    ++ "7. Use proper LaTeX list environments (itemize, enumerate) for bullet points\n"
    ++ "8. Format dates, names, and contact information appropriately\n\n"
    ++ "Return the complete LaTeX document ready to compile."

/-- The system-message persona used by the openai and groq branches of
`format_to_latex`. -/
def formatSystemPersona : String :=
  "You are a LaTeX formatting expert specializing in resume documents. Format the complete resume content into proper LaTeX structure."

/-- The two-message history built by `format_to_latex` for the
chat-style backends. -/
def formatMessages (transformed_content latex_template : String) : List Message :=
  [⟨.system, formatSystemPersona⟩,
   ⟨.user, prompt_format transformed_content latex_template⟩]

/-- The request payload handed to a provider backend: either a
multi-turn chat request (ordered message list plus sampling parameters)
or a single-turn generate request carrying one prompt string. -/
inductive ProviderRequest where
  | chatReq (model : String) (messages : List Message) (temperature : ℚ) (maxTokens : ℕ)
  | generateReq (model : String) (prompt : String)
deriving DecidableEq, Repr

/-- The provider dispatch of `transform_resume_content`: an
`if provider == ...` chain over the three recognized provider names,
with no `else` branch (falling through yields `none`, mirroring the
implicit `None` return of the Python method). -/
def transformRequest (provider : String) (resume_text job_description : String) :
    Option ProviderRequest :=
  if provider = "openai" then
    some (.chatReq "gpt-4.1-2025-04-14" (transformMessages resume_text job_description)
      0.6 8000)
  else if provider = "gemini" then
    some (.generateReq "gemini-2.5-pro" (enhanced_prompt_transform resume_text job_description))
  else if provider = "groq" then
    some (.chatReq "llama-3.1-8b-instant" (transformMessages resume_text job_description)
      0.6 8000)
  else none

/-- The provider dispatch of `format_to_latex`, with the same branch
structure as `transformRequest`. -/
def formatRequest (provider : String) (transformed_content latex_template : String) :
    Option ProviderRequest :=
  if provider = "openai" then
    some (.chatReq "gpt-4.1-2025-04-14" (formatMessages transformed_content latex_template)
      0.3 8000)
  else if provider = "gemini" then
    some (.generateReq "gemini-2.5-pro" (prompt_format transformed_content latex_template))
  else if provider = "groq" then
    some (.chatReq "llama-3.1-8b-instant" (formatMessages transformed_content latex_template)
      0.3 18000)
  else none

/-- The upper-case role label of the spec's `"ROLE: content"` blocks. -/
def roleLabel : Role → String
  | .system => "SYSTEM"
  | .user => "USER"
  | .assistant => "ASSISTANT"

/-- Following the spec's words (for comparison against the source): a
single-turn backend receives the ordered history flattened into one
string by joining a `"ROLE: content"` block per message with blank-line
separators. -/
def flattenHistorySpec (history : List Message) : String :=
  String.intercalate "\n\n" (history.map fun m => roleLabel m.role ++ ": " ++ m.content)

/-- The error message of `LLMService.__init__` for an unrecognized
provider name. -/
def unsupportedProviderMsg (provider : String) : String :=
  "Unsupported provider: " ++ provider ++ ". Use \x27openai\x27, \x27gemini\x27, or \x27groq\x27"

/-- The state established by a successful `LLMService.__init__`:
the lowercased provider name, the resolved API key, and the model
identifier selected for that provider. -/
structure LLMService where
  provider : String
  api_key : Option String
  model : String
deriving DecidableEq, Repr

/-- `LLMService.__init__`: lowercases the provider name, resolves the
API key from the argument or the provider-specific environment variable,
and fails with `ValueError` (here: `Except.error` carrying the exact
message) when the name is unrecognized or no key is available. -/
def LLMService.init (provider : String) (api_key : Option String)
    (env : String → Option String) : Except String LLMService :=
  let p := pyLower provider
  if p = "openai" then
    let key := pyOr api_key (env "OPENAI_API_KEY")
    if truthy key then .ok ⟨p, key, "gpt-4.1-2025-04-14"⟩
    else .error "OpenAI API key not provided. Set OPENAI_API_KEY environment variable."
  else if p = "gemini" then
    let key := pyOr api_key (env "GOOGLE_API_KEY")
    if truthy key then .ok ⟨p, key, "gemini-2.5-pro"⟩
    else .error "Google API key not provided. Set GOOGLE_API_KEY environment variable."
  else if p = "groq" then
    let key := pyOr api_key (env "GROQ_API_KEY")
    if truthy key then .ok ⟨p, key, "llama-3.1-8b-instant"⟩
    else .error "Groq API key not provided. Set GROQ_API_KEY environment variable."
  else .error (unsupportedProviderMsg provider)

/-! ## Conversation-aware transformation and refinement

`streamlit_app.py` calls `llm_service.transform_resume_with_history` and
`llm_service.refine_with_feedback`, but neither method appears in
`llm_service.py`; the two definitions below are modelled from the spec.
The LLM itself is an oracle `chat : List Message → String`. -/

/-- Modelled from the spec: `LLMService.transform_resume_with_history`
is called by the Streamlit app but is missing from `llm_service.py`.
Per the spec it builds the two-message seed (system persona plus
detailed transformation instructions embedding both inputs), invokes
`chat`, appends the assistant reply, and returns the reply together with
the resulting history of exactly three messages. -/
def transform_resume_with_history (chat : List Message → String)
    (resume_text job_description : String) : String × List Message :=
  let seedHistory := transformMessages resume_text job_description
  let reply := chat seedHistory
  (reply, seedHistory ++ [⟨.assistant, reply⟩])

/-- Modelled from the spec: the fixed instructional framing wrapped
around follow-up feedback, demanding that the rewrite cover the entire
resume rather than incrementally patch it. -/
def feedbackFraming (feedback : String) : String :=
  "Apply the following feedback and rewrite the COMPLETE updated resume. The rewrite must cover the entire resume, not incrementally patch it.\n\nFEEDBACK:\n"
    ++ feedback

/-- Modelled from the spec: `LLMService.refine_with_feedback` is called
by the Streamlit app but is missing from `llm_service.py`.  Per the spec
it appends a user message wrapping the feedback with the fixed
instructional framing, issues `chat`, appends the assistant reply, and
returns the reply together with the new history. -/
def refine_with_feedback (chat : List Message → String)
    (history : List Message) (feedback : String) : String × List Message :=
  let withFeedback := history ++ [⟨.user, feedbackFraming feedback⟩]
  let reply := chat withFeedback
  (reply, withFeedback ++ [⟨.assistant, reply⟩])

/-- Iterated refinement: the conversation history after `n` successive
`refine_with_feedback` calls starting from `history`, with the `i`-th
call using feedback `fb i`. -/
def refineIter (chat : List Message → String) (history : List Message)
    (fb : ℕ → String) : ℕ → List Message
  | 0 => history
  | n + 1 => (refine_with_feedback chat (refineIter chat history fb n) (fb n)).2

/-! ## The Streamlit session (`streamlit_app.py`)

The per-session mutable state and the two event handlers the claims are
about: the Transform-Resume button and the Apply-Feedback button.  The
stateless Stage-2 formatting call is abstracted as an oracle
`format : String → String`. -/

/-- The session-state fields of `streamlit_app.py` that the pipeline and
the refinement loop read and write. -/
structure SessionState where
  resume_text : Option String
  job_description : Option String
  transformed_content : Option String
  latex_output : Option String
  conversation : List Message
  followups_used : ℕ
  max_followups : ℕ
deriving DecidableEq, Repr

/-- The user-facing failures of the Streamlit handlers: the three input
validations of the Transform-Resume button, the empty-feedback warning,
and the exhausted follow-up budget. -/
inductive AppError where
  | emptyResume
  | emptyJobDescription
  | missingApiKey
  | invalidFeedback
  | budgetExhausted
deriving DecidableEq, Repr

/-- Whether an `AppError` is one of the two empty-input failures
(the spec's `EmptyInputError`). -/
def isEmptyInputError : AppError → Bool
  | .emptyResume => true
  | .emptyJobDescription => true
  | _ => false

/-- The Transform-Resume button handler of `streamlit_app.py`: validates
that the resume text, the job description and the API key are present
(Python truthiness), then runs the conversation-aware transformation,
stores the returned content and history in the session, resets the
follow-up counter to 0 with a maximum of 5, and formats the content to
LaTeX. -/
def transformButtonHandler (chat : List Message → String) (format : String → String)
    (s : SessionState) (api_key : String) : Except AppError SessionState :=
  if truthy s.resume_text = false then .error .emptyResume
  else if truthy s.job_description = false then .error .emptyJobDescription
  else if api_key = "" then .error .missingApiKey
  else
    let r := s.resume_text.getD ""
    let j := s.job_description.getD ""
    let t := transform_resume_with_history chat r j
    .ok { s with
      transformed_content := some t.1
      conversation := t.2
      followups_used := 0
      max_followups := 5
      latex_output := some (format t.1) }

/-- The Apply-Feedback button handler of `streamlit_app.py`: the button
is disabled when `max_followups - followups_used <= 0`; whitespace-only
feedback is rejected; otherwise `refine_with_feedback` runs, the session
stores the new content and history, and `followups_used` increments by
one. -/
def applyFeedback (chat : List Message → String) (format : String → String)
    (s : SessionState) (feedback : String) : Except AppError SessionState :=
  if s.max_followups - s.followups_used ≤ 0 then .error .budgetExhausted
  else if pyStrip feedback = "" then .error .invalidFeedback
  else
    let r := refine_with_feedback chat s.conversation feedback
    .ok { s with
      transformed_content := some r.1
      latex_output := some (format r.1)
      conversation := r.2
      followups_used := s.followups_used + 1 }

/-- One refinement attempt as the session experiences it: a successful
attempt replaces the session state, a failed one surfaces the error and
leaves the state untouched. -/
def applyFeedbackStep (chat : List Message → String) (format : String → String)
    (s : SessionState) (feedback : String) : SessionState × Option AppError :=
  match applyFeedback chat format s feedback with
  | .ok s2 => (s2, none)
  | .error e => (s, some e)

/-- `n` consecutive refinement attempts with the same feedback text. -/
def runAttempts (chat : List Message → String) (format : String → String)
    (feedback : String) : SessionState → ℕ → SessionState
  | s, 0 => s
  | s, n + 1 => runAttempts chat format feedback (applyFeedbackStep chat format s feedback).1 n

/-! ## The LaTeX compiler wrapper (`latex_generator.py`)

`compile_to_pdf` shells out to `pdflatex`.  The embedding records every
`subprocess.run` invocation as a `SubprocCall` (argument vector and
timeout in seconds), threads the work directory's contents as a list of
file names, and turns the raised Python exceptions into `Except.error`
values carrying the exact exception messages. -/

/-- One `subprocess.run` invocation: the argument vector and the timeout
in seconds. -/
structure SubprocCall where
  args : List String
  timeout : ℕ
deriving DecidableEq, Repr

/-- The `pdflatex --version` availability probe (5-second timeout). -/
def pdflatexVersionCall : SubprocCall :=
  ⟨["pdflatex", "--version"], 5⟩

/-- One compilation pass: `pdflatex -interaction=nonstopmode <filename>`
with a 60-second timeout. -/
def pdflatexPassCall (texFilename : String) : SubprocCall :=
  ⟨["pdflatex", "-interaction=nonstopmode", texFilename], 60⟩

/-- The Python exceptions `compile_to_pdf` can raise, with their
messages. -/
inductive PyError where
  | fileNotFoundError (msg : String)
  | valueError (msg : String)
  | runtimeError (msg : String)
deriving DecidableEq, Repr

/-- The `RuntimeError` message raised when `pdflatex` is not
discoverable (the actionable install guidance). -/
def pdflatexNotFoundMessage : String :=
  "pdflatex not found. Please install a LaTeX distribution:\n"
    ++ "  - Windows: Install MiKTeX (https://miktex.org/)\n"
    ++ "  - Linux: sudo apt-get install texlive-latex-base texlive-latex-extra texlive-fonts-extra\n"
    ++ "  - macOS: Install MacTeX or use: brew install --cask mactex"

/-- The `RuntimeError` message raised when a compilation pass exceeds
its timeout. -/
def compilationTimeoutMessage : String :=
  "PDF compilation timed out. The LaTeX file may be too complex."

/-- The environment a `compile_to_pdf` run interacts with: whether the
input file exists, whether the `pdflatex` probe succeeds within its
5-second timeout, whether each pass exceeds its 60-second timeout,
whether the PDF exists after both passes, which `unlink` calls succeed,
and the work directory's contents before and after the passes run. -/
structure CompileEnv where
  texFileExists : Bool
  toolAvailable : Bool
  pass1TimesOut : Bool
  pass2TimesOut : Bool
  pdfCreated : Bool
  unlinkOk : String → Bool
  filesBefore : List String
  filesAfterPasses : List String

/-- The observable outcome of a `compile_to_pdf` run: the trace of
child-process invocations, the returned value or raised exception, and
the final work-directory contents. -/
structure CompileResult where
  calls : List SubprocCall
  outcome : Except PyError (Bool × Option String)
  files : List String

/-- The fixed list of intermediate byproduct extensions deleted by
`_cleanup_intermediate_files`. -/
def intermediate_extensions : List String :=
  [".log", ".aux", ".out", ".synctex.gz", ".fdb_latexmk", ".fls"]

/-- `LaTeXGenerator._cleanup_intermediate_files`: for each enumerated
extension, if `base_name ++ ext` exists in the directory it is
unlinked; a failing unlink is swallowed (the file merely remains); the
function never raises. -/
def _cleanup_intermediate_files (unlinkOk : String → Bool) (base_name : String) :
    List String → List String → List String
  | [], files => files
  | ext :: rest, files =>
      let f := base_name ++ ext
      let files2 :=
        if f ∈ files then (if unlinkOk f then files.filter (fun g => g != f) else files)
        else files
      _cleanup_intermediate_files unlinkOk base_name rest files2

/-- `LaTeXGenerator.compile_to_pdf` on the file `stem ++ ext`: checks
existence and the `.tex` extension, probes for `pdflatex`, runs the two
compilation passes with identical arguments and 60-second timeouts,
checks for the PDF, and on success optionally cleans up the intermediate
byproducts. -/
def compile_to_pdf (env : CompileEnv) (stem ext : String) (cleanup : Bool) :
    CompileResult :=
  if env.texFileExists = false then
    ⟨[], .error (.fileNotFoundError ("LaTeX file not found: " ++ stem ++ ext)),
      env.filesBefore⟩
  else if ext ≠ ".tex" then
    ⟨[], .error (.valueError ("File must have .tex extension: " ++ stem ++ ext)),
      env.filesBefore⟩
  else if env.toolAvailable = false then
    ⟨[pdflatexVersionCall], .error (.runtimeError pdflatexNotFoundMessage),
      env.filesBefore⟩
  else
    let pass := pdflatexPassCall (stem ++ ext)
    if env.pass1TimesOut = true then
      ⟨[pdflatexVersionCall, pass], .error (.runtimeError compilationTimeoutMessage),
        env.filesAfterPasses⟩
    else if env.pass2TimesOut = true then
      ⟨[pdflatexVersionCall, pass, pass], .error (.runtimeError compilationTimeoutMessage),
        env.filesAfterPasses⟩
    else if env.pdfCreated = true then
      let files2 :=
        if cleanup then
          _cleanup_intermediate_files env.unlinkOk stem intermediate_extensions
            env.filesAfterPasses
        else env.filesAfterPasses
      ⟨[pdflatexVersionCall, pass, pass], .ok (true, some (stem ++ ".pdf")), files2⟩
    else
      ⟨[pdflatexVersionCall, pass, pass], .ok (false, none), env.filesAfterPasses⟩

/-! ## The pipeline tail of `main.py`

`ResumeUpdater.process_resume` wraps the compilation step in
`try/except`, prints a warning on any non-success, and always returns
`(saved_path, pdf_path)`. -/

/-- The value `process_resume` returns after its compilation step, given
the result of `compile_to_pdf`: `(saved_path, pdf_path)`, where
`pdf_path` is whatever the compiler returned, or `None` when it
raised. -/
def processResumeReturn (saved_path : String)
    (compileOutcome : Except PyError (Bool × Option String)) : String × Option String :=
  match compileOutcome with
  | .ok (_, p) => (saved_path, p)
  | .error _ => (saved_path, none)

/-- Whether `process_resume` reports its compilation step as a warning
rather than a success: it does unless the compiler returned success with
a PDF path. -/
def compileWarningPrinted : Except PyError (Bool × Option String) → Bool
  | .ok (success, p) => !(success && p.isSome)
  | .error _ => true

/-! ## Helper lemmas about byproduct cleanup -/

/-- Cleanup only ever removes files: membership in its result implies
membership in the starting directory contents. -/
theorem mem_files_of_mem_cleanup (u : String → Bool) (base : String) :
    ∀ (exts files : List String) (x : String),
      x ∈ _cleanup_intermediate_files u base exts files → x ∈ files := by
  intro exts
  induction exts with
  | nil =>
      intro files x h
      simpa [_cleanup_intermediate_files] using h
  | cons e0 rest ih =>
      intro files x h
      simp only [_cleanup_intermediate_files] at h
      have h2 := ih _ x h
      split at h2
      · split at h2
        · exact List.mem_of_mem_filter h2
        · exact h2
      · exact h2

/-- Every enumerated byproduct whose unlink succeeds is absent from the
cleanup result. -/
theorem cleanup_removes_byproduct (u : String → Bool) (base : String) :
    ∀ (exts files : List String) (e : String), e ∈ exts → u (base ++ e) = true →
      (base ++ e) ∉ _cleanup_intermediate_files u base exts files := by
  intro exts
  induction exts with
  | nil =>
      intro files e he
      exact absurd he (List.not_mem_nil e)
  | cons e0 rest ih =>
      intro files e he hu hmem
      simp only [_cleanup_intermediate_files] at hmem
      rcases List.mem_cons.mp he with he0 | her
      · subst he0
        have h2 := mem_files_of_mem_cleanup u base rest _ _ hmem
        by_cases hmemf : base ++ e ∈ files
        · rw [if_pos hmemf, if_pos hu] at h2
          have := (List.mem_filter.mp h2).2
          simp at this
        · rw [if_neg hmemf] at h2
          exact hmemf h2
      · exact ih _ e her hu hmem

/-! ## The claims about the compiler wrapper -/

/-- Claim C6: for a valid input document (existing, `.tex`, tool
available), `compile_to_pdf` invokes `pdflatex` exactly twice in
sequence on the same input with identical arguments
`pdflatex -interaction=nonstopmode <filename>`, each bounded by a
60-second timeout; a timeout on either pass raises the
compilation-timeout `RuntimeError`. -/
theorem C6_two_pass_compilation (env : CompileEnv) (stem : String) (cleanup : Bool)
    (hex : env.texFileExists = true) (htool : env.toolAvailable = true) :
    (env.pass1TimesOut = false → env.pass2TimesOut = false →
        (compile_to_pdf env stem ".tex" cleanup).calls
          = [pdflatexVersionCall, pdflatexPassCall (stem ++ ".tex"),
             pdflatexPassCall (stem ++ ".tex")] ∧
        pdflatexPassCall (stem ++ ".tex")
          = ⟨["pdflatex", "-interaction=nonstopmode", stem ++ ".tex"], 60⟩) ∧
    (env.pass1TimesOut = true ∨ env.pass2TimesOut = true →
        (compile_to_pdf env stem ".tex" cleanup).outcome
          = .error (.runtimeError compilationTimeoutMessage)) := by
  constructor
  · intro h1 h2
    refine ⟨?_, rfl⟩
    cases hpc : env.pdfCreated <;>
      simp [compile_to_pdf, hex, htool, h1, h2, hpc]
  · intro h
    cases hp1 : env.pass1TimesOut with
    | true => simp [compile_to_pdf, hex, htool, hp1]
    | false =>
        have hp2 : env.pass2TimesOut = true := by
          rcases h with h | h
          · exact absurd h (by simp [hp1])
          · exact h
        simp [compile_to_pdf, hex, htool, hp1, hp2]

/-- Witness for C6 at a concrete environment and document. -/
theorem C6_two_pass_compilation_witness :
    (compile_to_pdf ⟨true, true, false, false, true, fun _ => true, [], []⟩
        "updated_resume" ".tex" true).calls
      = [pdflatexVersionCall, pdflatexPassCall ("updated_resume" ++ ".tex"),
         pdflatexPassCall ("updated_resume" ++ ".tex")] :=
  ((C6_two_pass_compilation ⟨true, true, false, false, true, fun _ => true, [], []⟩
      "updated_resume" true rfl rfl).1 rfl rfl).1

/-- Claim C7: if both passes run and the PDF does not exist afterwards,
`compile_to_pdf` returns `(False, None)` without raising, and
`process_resume` prints a warning and still completes, returning the
saved document path with no PDF path. -/
theorem C7_missing_pdf_nonfatal (env : CompileEnv) (stem saved_path : String) (cleanup : Bool)
    (hex : env.texFileExists = true) (htool : env.toolAvailable = true)
    (h1 : env.pass1TimesOut = false) (h2 : env.pass2TimesOut = false)
    (hpdf : env.pdfCreated = false) :
    (compile_to_pdf env stem ".tex" cleanup).outcome = .ok (false, none) ∧
    processResumeReturn saved_path (compile_to_pdf env stem ".tex" cleanup).outcome
      = (saved_path, none) ∧
    compileWarningPrinted (compile_to_pdf env stem ".tex" cleanup).outcome = true := by
  have h : (compile_to_pdf env stem ".tex" cleanup).outcome = .ok (false, none) := by
    simp [compile_to_pdf, hex, htool, h1, h2, hpdf]
  exact ⟨h, by rw [h]; rfl, by rw [h]; rfl⟩

/-- Witness for C7 at a concrete environment and document. -/
theorem C7_missing_pdf_nonfatal_witness :
    (compile_to_pdf ⟨true, true, false, false, false, fun _ => true, ["doc.tex"], ["doc.tex", "doc.log"]⟩
        "doc" ".tex" true).outcome = .ok (false, none) :=
  (C7_missing_pdf_nonfatal
      ⟨true, true, false, false, false, fun _ => true, ["doc.tex"], ["doc.tex", "doc.log"]⟩
      "doc" "updated_resume.tex" true rfl rfl rfl rfl rfl).1

/-- Claim C8: when the input document exists but `pdflatex` is not
discoverable, `compile_to_pdf` raises the `RuntimeError` carrying the
install guidance, no compilation pass is invoked (only the version
probe appears in the trace), and the directory contents are left
untouched. -/
theorem C8_tool_not_found (env : CompileEnv) (stem : String) (cleanup : Bool)
    (hex : env.texFileExists = true) (htool : env.toolAvailable = false) :
    (compile_to_pdf env stem ".tex" cleanup).outcome
      = .error (.runtimeError pdflatexNotFoundMessage) ∧
    (compile_to_pdf env stem ".tex" cleanup).calls = [pdflatexVersionCall] ∧
    (compile_to_pdf env stem ".tex" cleanup).files = env.filesBefore := by
  refine ⟨?_, ?_, ?_⟩ <;> simp [compile_to_pdf, hex, htool]

/-- Witness for C8 at a concrete environment and document. -/
theorem C8_tool_not_found_witness :
    (compile_to_pdf ⟨true, false, false, false, false, fun _ => true, ["doc.tex"], ["doc.tex"]⟩
        "doc" ".tex" true).outcome = .error (.runtimeError pdflatexNotFoundMessage) :=
  (C8_tool_not_found ⟨true, false, false, false, false, fun _ => true, ["doc.tex"], ["doc.tex"]⟩
      "doc" true rfl rfl).1

/-- Claim C9: after a successful compile run with `cleanup := true` in
which every unlink succeeds, no file `stem ++ ext` with `ext` among the
enumerated byproduct extensions remains in the directory; and the
cleanup step never raises — with arbitrary (possibly failing) unlinks
the run still returns success. -/
theorem C9_cleanup_byproducts (env : CompileEnv) (stem : String)
    (hex : env.texFileExists = true) (htool : env.toolAvailable = true)
    (h1 : env.pass1TimesOut = false) (h2 : env.pass2TimesOut = false)
    (hpdf : env.pdfCreated = true)
    (hunlink : ∀ e ∈ intermediate_extensions, env.unlinkOk (stem ++ e) = true) :
    (compile_to_pdf env stem ".tex" true).outcome = .ok (true, some (stem ++ ".pdf")) ∧
    (∀ e ∈ intermediate_extensions, (stem ++ e) ∉ (compile_to_pdf env stem ".tex" true).files) ∧
    (∀ env2 : CompileEnv, env2.texFileExists = true → env2.toolAvailable = true →
        env2.pass1TimesOut = false → env2.pass2TimesOut = false → env2.pdfCreated = true →
        (compile_to_pdf env2 stem ".tex" true).outcome = .ok (true, some (stem ++ ".pdf"))) := by
  have hfiles : (compile_to_pdf env stem ".tex" true).files
      = _cleanup_intermediate_files env.unlinkOk stem intermediate_extensions
          env.filesAfterPasses := by
    simp [compile_to_pdf, hex, htool, h1, h2, hpdf]
  refine ⟨by simp [compile_to_pdf, hex, htool, h1, h2, hpdf], ?_, ?_⟩
  · intro e he
    rw [hfiles]
    exact cleanup_removes_byproduct env.unlinkOk stem intermediate_extensions
      env.filesAfterPasses e he (hunlink e he)
  · intro env2 a b c d e
    simp [compile_to_pdf, a, b, c, d, e]

/-- Witness for C9 at a concrete environment in which the passes left
byproduct files behind. -/
theorem C9_cleanup_byproducts_witness :
    ("doc" ++ ".log") ∉ (compile_to_pdf
        ⟨true, true, false, false, true, fun _ => true, ["doc.tex"],
         ["doc.tex", "doc.pdf", "doc.log", "doc.aux", "doc.out"]⟩
        "doc" ".tex" true).files :=
  (C9_cleanup_byproducts
      ⟨true, true, false, false, true, fun _ => true, ["doc.tex"],
       ["doc.tex", "doc.pdf", "doc.log", "doc.aux", "doc.out"]⟩
      "doc" rfl rfl rfl rfl rfl (by intro e he; rfl)).2.1 ".log" (by decide)

/-! ## The claims about seeding, refinement and the budget -/

/-- Claim C3: seeding produces a conversation of exactly 2 messages,
the first a system message, the second a user message whose content
contains both the resume text and the job description verbatim; the
seed is deterministic given identical inputs. -/
theorem C3_seed_conversation (resume_text job_description : String)
    (_hr : resume_text ≠ "") (_hj : job_description ≠ "") :
    (transformMessages resume_text job_description).length = 2 ∧
    (∃ m, (transformMessages resume_text job_description)[0]? = some m ∧
      m.role = .system) ∧
    (∃ m, (transformMessages resume_text job_description)[1]? = some m ∧
      m.role = .user ∧ containsSub m.content resume_text ∧
      containsSub m.content job_description) ∧
    (∀ r2 j2, r2 = resume_text → j2 = job_description →
      transformMessages r2 j2 = transformMessages resume_text job_description) := by
  refine ⟨rfl, ⟨_, rfl, rfl⟩, ⟨_, rfl, rfl, ?_, ?_⟩, ?_⟩
  · exact ⟨transformPromptHeader ++ job_description ++ transformPromptMiddle,
      transformPromptTail ++ transformReasoningSuffix,
      by simp [transformMessages, enhanced_prompt_transform, prompt_transform,
        String.append_assoc]⟩
  · exact ⟨transformPromptHeader,
      transformPromptMiddle ++ resume_text ++ transformPromptTail ++ transformReasoningSuffix,
      by simp [transformMessages, enhanced_prompt_transform, prompt_transform,
        String.append_assoc]⟩
  · intro r2 j2 h1 h2
    rw [h1, h2]

/-- Witness for C3 at the spec's scenario inputs. -/
theorem C3_seed_conversation_witness :
    (transformMessages "Jane Doe, Software Engineer at Acme 2019-2022"
        "Senior Backend Engineer, Go, Kubernetes").length = 2 :=
  (C3_seed_conversation "Jane Doe, Software Engineer at Acme 2019-2022"
      "Senior Backend Engineer, Go, Kubernetes" (by decide) (by decide)).1

/-- Claim C1, as stated, fails on the seeded session: the seeded history
already holds 3 messages (system, user seed, first assistant reply), so
after 1 refinement it has 5 messages, not `2 + 2 * 1 = 4`. -/
theorem C1_history_length_counterexample :
    (refineIter (fun _ => "REPLY")
        (transform_resume_with_history (fun _ => "REPLY") "resume text" "job text").2
        (fun _ => "feedback") 1).length ≠ 2 + 2 * 1 := by
  decide

/-- Claim C1 (amended): one refinement call appends exactly two messages
(the framed user feedback, then the assistant reply), returns a history
of length `len(H) + 2`, and increments the follow-up counter by exactly
1; after `N` refinements on a seeded session the history has length
`3 + 2 * N`, the seeded history already containing the first assistant
reply. -/
theorem C1_refinement_invariant (chat : List Message → String) (format : String → String)
    (H : List Message) (F : String) (hF : pyStrip F ≠ "") :
    (refine_with_feedback chat H F).2 =
        H ++ [⟨.user, feedbackFraming F⟩,
              ⟨.assistant, chat (H ++ [⟨.user, feedbackFraming F⟩])⟩] ∧
    (refine_with_feedback chat H F).2.length = H.length + 2 ∧
    (∀ s : SessionState, s.conversation = H → s.followups_used < s.max_followups →
        ∃ s2, applyFeedback chat format s F = .ok s2 ∧
          s2.conversation = (refine_with_feedback chat H F).2 ∧
          s2.followups_used = s.followups_used + 1) ∧
    (∀ r j fb N, (refineIter chat (transform_resume_with_history chat r j).2 fb N).length
        = 3 + 2 * N) := by
  refine ⟨by simp [refine_with_feedback], by simp [refine_with_feedback], ?_, ?_⟩
  · intro s hs hb
    unfold applyFeedback
    rw [if_neg (by omega), if_neg hF]
    exact ⟨_, rfl, by simp [hs], rfl⟩
  · intro r j fb N
    induction N with
    | zero => simp [refineIter, transform_resume_with_history, transformMessages]
    | succ n ih =>
        simp only [refineIter, refine_with_feedback]
        simp only [List.length_append, List.length_cons, List.length_nil, ih]
        omega

/-- Witness for C1 at a concrete oracle, history and feedback string. -/
theorem C1_refinement_invariant_witness :
    (refine_with_feedback (fun _ => "REPLY") ([] : List Message)
        "Add more impact metrics").2.length = ([] : List Message).length + 2 :=
  (C1_refinement_invariant (fun _ => "REPLY") (fun s => s) ([] : List Message)
      "Add more impact metrics" (by decide)).2.1

/-- A successful refinement attempt (budget not exhausted, feedback not
blank) increments the follow-up counter and preserves the maximum. -/
theorem applyFeedbackStep_counts (chat : List Message → String) (format : String → String)
    (feedback : String) (hfb : pyStrip feedback ≠ "") (s : SessionState)
    (hs : s.followups_used < s.max_followups) :
    (applyFeedbackStep chat format s feedback).1.followups_used = s.followups_used + 1 ∧
    (applyFeedbackStep chat format s feedback).1.max_followups = s.max_followups := by
  unfold applyFeedbackStep applyFeedback
  rw [if_neg (by omega), if_neg hfb]
  exact ⟨rfl, rfl⟩

/-- As long as the budget suffices, `n` refinement attempts advance the
follow-up counter by exactly `n` and preserve the maximum. -/
theorem runAttempts_counts (chat : List Message → String) (format : String → String)
    (feedback : String) (hfb : pyStrip feedback ≠ "") :
    ∀ (n : ℕ) (s : SessionState), s.followups_used + n ≤ s.max_followups →
      (runAttempts chat format feedback s n).followups_used = s.followups_used + n ∧
      (runAttempts chat format feedback s n).max_followups = s.max_followups := by
  intro n
  induction n with
  | zero =>
      intro s h
      exact ⟨by simp [runAttempts], by simp [runAttempts]⟩
  | succ n ih =>
      intro s h
      obtain ⟨hu, hm2⟩ := applyFeedbackStep_counts chat format feedback hfb s (by omega)
      obtain ⟨h2u, h2m⟩ := ih (applyFeedbackStep chat format s feedback).1 (by omega)
      rw [show runAttempts chat format feedback s (n + 1)
            = runAttempts chat format feedback (applyFeedbackStep chat format s feedback).1 n
          from rfl]
      exact ⟨by omega, by omega⟩

/-- Claim C2: when `followups_used` equals `max_followups`, a further
refinement attempt fails with the budget-exhausted error and leaves the
session state (hence the history) unchanged; starting from a fresh
session with `max = 5`, attempts 1 through 5 succeed and the 6th fails
with `used` still 5. -/
theorem C2_budget_exhaustion (chat : List Message → String) (format : String → String)
    (feedback : String) (hfb : pyStrip feedback ≠ "")
    (s0 : SessionState) (h0 : s0.followups_used = 0) (hm : s0.max_followups = 5) :
    (∀ s : SessionState, s.followups_used = s.max_followups →
        applyFeedback chat format s feedback = .error .budgetExhausted ∧
        applyFeedbackStep chat format s feedback = (s, some .budgetExhausted)) ∧
    (runAttempts chat format feedback s0 5).followups_used = 5 ∧
    (runAttempts chat format feedback s0 5).max_followups = 5 ∧
    applyFeedbackStep chat format (runAttempts chat format feedback s0 5) feedback
      = (runAttempts chat format feedback s0 5, some .budgetExhausted) := by
  have herr : ∀ s : SessionState, s.followups_used = s.max_followups →
      applyFeedback chat format s feedback = .error .budgetExhausted := by
    intro s hs
    unfold applyFeedback
    rw [if_pos (by omega)]
  obtain ⟨hu5, hm5⟩ := runAttempts_counts chat format feedback hfb 5 s0 (by omega)
  refine ⟨fun s hs => ⟨herr s hs, ?_⟩, by omega, by omega, ?_⟩
  · unfold applyFeedbackStep
    rw [herr s hs]
  · unfold applyFeedbackStep
    rw [herr (runAttempts chat format feedback s0 5) (by omega)]

/-- Witness for C2 at a concrete oracle and fresh session. -/
theorem C2_budget_exhaustion_witness :
    (runAttempts (fun _ => "REPLY") (fun s => s) "please emphasize leadership"
        ⟨some "r", some "j", none, none, [], 0, 5⟩ 5).followups_used = 5 :=
  (C2_budget_exhaustion (fun _ => "REPLY") (fun s => s) "please emphasize leadership"
      (by decide) ⟨some "r", some "j", none, none, [], 0, 5⟩ rfl rfl).2.1

/-- Claim C4, as stated, fails on the code: at the transform call site
the single-turn Gemini backend receives the raw enhanced prompt, which
is not the role-labelled flattening of the two-message seed history. -/
theorem C4_flattening_counterexample :
    transformRequest "gemini" "my resume" "my job"
        = some (.generateReq "gemini-2.5-pro"
            (enhanced_prompt_transform "my resume" "my job")) ∧
    enhanced_prompt_transform "my resume" "my job"
        ≠ flattenHistorySpec (transformMessages "my resume" "my job") :=
  ⟨rfl, by decide⟩

/-- Claim C4 (amended): at the transform and format call sites present
in `llm_service.py`, the single-turn Gemini backend receives a single
prompt string equal to the content of the user message of the
corresponding chat-backend history — no role labels are added and the
system message is not included. -/
theorem C4_gemini_prompt_amended (r j c t : String) :
    transformRequest "gemini" r j
        = some (.generateReq "gemini-2.5-pro" (enhanced_prompt_transform r j)) ∧
    formatRequest "gemini" c t
        = some (.generateReq "gemini-2.5-pro" (prompt_format c t)) ∧
    (transformMessages r j)[1]? = some ⟨.user, enhanced_prompt_transform r j⟩ ∧
    (formatMessages c t)[1]? = some ⟨.user, prompt_format c t⟩ :=
  ⟨rfl, rfl, rfl, rfl⟩

/-- Claim C5: the Transform-Resume handler fails with an empty-input
error whenever the resume text or the job description is absent or
empty; with both present (and an API key configured) it proceeds,
building the seed conversation, invoking the provider, and storing the
result in the session. -/
theorem C5_empty_input_validation (chat : List Message → String) (format : String → String)
    (s : SessionState) (api_key : String) :
    (truthy s.resume_text = false ∨ truthy s.job_description = false →
        ∃ e, transformButtonHandler chat format s api_key = .error e ∧
          isEmptyInputError e = true) ∧
    (truthy s.resume_text = true → truthy s.job_description = true → api_key ≠ "" →
        transformButtonHandler chat format s api_key = .ok { s with
          transformed_content := some (transform_resume_with_history chat
            (s.resume_text.getD "") (s.job_description.getD "")).1
          conversation := (transform_resume_with_history chat
            (s.resume_text.getD "") (s.job_description.getD "")).2
          followups_used := 0
          max_followups := 5
          latex_output := some (format (transform_resume_with_history chat
            (s.resume_text.getD "") (s.job_description.getD "")).1) }) := by
  constructor
  · intro h
    by_cases hres : truthy s.resume_text = false
    · refine ⟨.emptyResume, ?_, rfl⟩
      unfold transformButtonHandler
      rw [if_pos hres]
    · have hjd : truthy s.job_description = false := by
        rcases h with h | h
        · exact absurd h hres
        · exact h
      refine ⟨.emptyJobDescription, ?_, rfl⟩
      unfold transformButtonHandler
      rw [if_neg hres, if_pos hjd]
  · intro h1 h2 h3
    unfold transformButtonHandler
    rw [if_neg (by simp [h1]), if_neg (by simp [h2]), if_neg h3]

/-- Witness for C5 at a session with no resume text. -/
theorem C5_empty_input_validation_witness :
    ∃ e, transformButtonHandler (fun _ => "REPLY") (fun s => s)
          ⟨none, some "job description", none, none, [], 0, 5⟩ "sk-key" = .error e ∧
      isEmptyInputError e = true :=
  (C5_empty_input_validation (fun _ => "REPLY") (fun s => s)
      ⟨none, some "job description", none, none, [], 0, 5⟩ "sk-key").1 (Or.inl rfl)

/-- Claim C10: `LLMService.__init__` matches the provider name
case-insensitively; a successfully constructed service has its provider
in {openai, gemini, groq}, so the transform and format dispatch always
take a defined branch; an unrecognized name, or a recognized name with
no API key available, raises `ValueError`. -/
theorem C10_provider_validation (provider : String) (api_key : Option String)
    (env : String → Option String) :
    (∀ svc, LLMService.init provider api_key env = .ok svc →
        (svc.provider = "openai" ∨ svc.provider = "gemini" ∨ svc.provider = "groq") ∧
        svc.provider = pyLower provider ∧
        (∀ r j, (transformRequest svc.provider r j).isSome = true) ∧
        (∀ c t, (formatRequest svc.provider c t).isSome = true)) ∧
    (pyLower provider ≠ "openai" → pyLower provider ≠ "gemini" →
        pyLower provider ≠ "groq" →
        LLMService.init provider api_key env = .error (unsupportedProviderMsg provider)) ∧
    (pyLower provider = "openai" → truthy (pyOr api_key (env "OPENAI_API_KEY")) = false →
        LLMService.init provider api_key env
          = .error "OpenAI API key not provided. Set OPENAI_API_KEY environment variable.") ∧
    (pyLower provider = "gemini" → truthy (pyOr api_key (env "GOOGLE_API_KEY")) = false →
        LLMService.init provider api_key env
          = .error "Google API key not provided. Set GOOGLE_API_KEY environment variable.") ∧
    (pyLower provider = "groq" → truthy (pyOr api_key (env "GROQ_API_KEY")) = false →
        LLMService.init provider api_key env
          = .error "Groq API key not provided. Set GROQ_API_KEY environment variable.") := by
  refine ⟨?_, ?_, ?_, ?_, ?_⟩
  · intro svc hsvc
    simp only [LLMService.init] at hsvc
    split_ifs at hsvc with hp1 hk1 hp2 hk2 hp3 hk3 <;>
      first
        | exact Except.noConfusion hsvc
        | (injection hsvc with hsvc
           subst hsvc
           refine ⟨?_, rfl, fun r j => ?_, fun c t => ?_⟩ <;>
             simp_all [transformRequest, formatRequest])
  · intro hn1 hn2 hn3
    simp [LLMService.init, hn1, hn2, hn3]
  · intro hp hk
    simp [LLMService.init, hp, hk]
  · intro hp hk
    simp [LLMService.init, hp, hk]
  · intro hp hk
    simp [LLMService.init, hp, hk]

/-- Witness for C10 at an unrecognized provider name. -/
theorem C10_provider_validation_witness :
    LLMService.init "anthropic" (some "some-key") (fun _ => none)
      = .error (unsupportedProviderMsg "anthropic") :=
  (C10_provider_validation "anthropic" (some "some-key") (fun _ => none)).2.1
    (by decide) (by decide) (by decide)

end ResumeTailor
